import Mathlib

/-!
Shallow embedding of the Primtetrade-Binance-Bot repository
(`app/main.py`, `app/services/trade_service.py`, `app/services/logger.py`)
and proofs about the claims of its specification.

Modelling conventions:
* Python exceptions are the inductive `PyExn`; a method that can raise
  returns `Except PyExn α`.
* The external exchange client (`binance.AsyncClient`) is a parameter: a
  `Remote` record of oracles, one per endpoint the repository calls.  Each
  oracle returns `Except PyExn _`, so any remote failure mode is a value of
  the parameter.  Numeric fields of remote responses (which the Python code
  obtains with `float(...)` from well-formed library responses) are modelled
  as rationals `ℚ`.
* Each facade method is a pure function from the service state, the remote
  oracle and the arguments to a `MethodOut`: the resulting state, the list
  of emitted log entries, the list of remote calls issued (in order), and
  the result (`Except PyExn α`).
* Loguru log lines are `LogEntry` values; `logger.bind(trade=True).info`
  sets the `trade` flag.  Interpolated numbers are rendered with `toString`,
  an abstraction of Python float formatting; no claim inspects the digits.
-/

namespace BinanceBot

/-! ## Constants from `binance.enums` (their runtime string values) -/

def SIDE_BUY : String := "BUY"
def SIDE_SELL : String := "SELL"
def FUTURE_ORDER_TYPE_MARKET : String := "MARKET"
def ORDER_TYPE_LIMIT : String := "LIMIT"
def TIME_IN_FORCE_GTC : String := "GTC"
def ORDER_TYPE_STOP_LOSS_LIMIT : String := "STOP_LOSS_LIMIT"

/-! ## Python-side values -/

/-- Python exceptions the embedded code can observe: `ValueError` raised by
side validation, `TypeError` raised by call binding, and any exception
surfaced by the remote client (network error, rejected order, ...). -/
inductive PyExn where
  | valueError (msg : String)
  | typeError (msg : String)
  | remote (msg : String)
deriving DecidableEq, Repr

/-- The `str(e)` text of an exception, as interpolated into log messages. -/
def PyExn.msg : PyExn → String
  | .valueError m => m
  | .typeError m => m
  | .remote m => m

/-- Loguru severity levels used by the repository. -/
inductive LogLevel where
  | info
  | warning
  | error
deriving DecidableEq, Repr

/-- One emitted log line: severity, whether it was sent through
`logger.bind(trade=True)` (the trade-audit sink of `logger.py`), and the
formatted message. -/
structure LogEntry where
  level : LogLevel
  trade : Bool
  msg : String
deriving DecidableEq, Repr

/-- The error-level entries of a log trace. -/
def errorLogs (logs : List LogEntry) : List LogEntry :=
  logs.filter fun l => decide (l.level = LogLevel.error)

/-! ## Remote calls and responses -/

/-- Keyword arguments of an order-creation endpoint call, exactly the
keywords the repository passes (`None` encodes an omitted keyword). -/
structure OrderParams where
  symbol : String
  side : String
  type : String
  timeInForce : Option String
  quantity : ℚ
  price : Option ℚ
  stopPrice : Option ℚ
deriving DecidableEq, Repr

/-- Order response dict, restricted to the keys the repository reads
(`order["orderId"]`, `order["status"]`, and the display keys). -/
structure Order where
  orderId : Int
  status : String
deriving DecidableEq, Repr

/-- Cancellation acknowledgment returned by `futures_cancel_order`. -/
structure CancelAck where
  orderId : Int
  status : String
deriving DecidableEq, Repr

/-- One entry of the `futures_position_information` response.
`positionAmt := none` models a response dict that lacks the
`"positionAmt"` key (read in `main.py` with `p.get("positionAmt", 0)`);
`some a` models a present amount with numeric value `a`. -/
structure Position where
  symbol : String
  positionAmt : Option ℚ
  entryPrice : String
  markPrice : String
  unRealizedProfit : Option ℚ
deriving DecidableEq, Repr

/-- A call issued to the external exchange client, tagged by the method
name invoked on the client object. -/
inductive RemoteCall where
  | futures_create_order (p : OrderParams)
  | create_order (p : OrderParams)
  | futures_symbol_ticker (symbol : String)
  | futures_account
  | futures_cancel_order (symbol : String) (orderId : Int)
  | futures_get_open_orders (symbol : Option String)
  | futures_position_information (symbol : Option String)
deriving DecidableEq, Repr

/-- The name of the client method a remote call goes through. -/
def RemoteCall.endpoint : RemoteCall → String
  | .futures_create_order _ => "futures_create_order"
  | .create_order _ => "create_order"
  | .futures_symbol_ticker _ => "futures_symbol_ticker"
  | .futures_account => "futures_account"
  | .futures_cancel_order _ _ => "futures_cancel_order"
  | .futures_get_open_orders _ => "futures_get_open_orders"
  | .futures_position_information _ => "futures_position_information"

/-- The symbol an issued remote call carries toward the exchange,
when it carries one. -/
def RemoteCall.symbolSent : RemoteCall → Option String
  | .futures_create_order p => some p.symbol
  | .create_order p => some p.symbol
  | .futures_symbol_ticker s => some s
  | .futures_account => none
  | .futures_cancel_order s _ => some s
  | .futures_get_open_orders o => o
  | .futures_position_information o => o

/-- Behaviour of the external exchange client: one oracle per endpoint the
repository calls.  `futures_symbol_ticker` yields the numeric value of the
response field `ticker["price"]`; `futures_account` yields the numeric value
of `account["totalWalletBalance"]`. -/
structure Remote where
  futures_create_order : OrderParams → Except PyExn Order
  create_order : OrderParams → Except PyExn Order
  futures_symbol_ticker : String → Except PyExn ℚ
  futures_account : Except PyExn ℚ
  futures_cancel_order : String → Int → Except PyExn CancelAck
  futures_get_open_orders : Option String → Except PyExn (List Order)
  futures_position_information : Option String → Except PyExn (List Position)

/-! ## The trading facade state -/

/-- A live `AsyncClient` handle as far as the repository observes it:
the credentials and mode it was created with. -/
structure Client where
  api_key : String
  secret_key : String
  testnet : Bool
deriving DecidableEq, Repr

/-- The fields `TradeService.__init__` assigns on `self`. -/
structure TradeService where
  testnet : Bool
  api_key : String
  secret_key : String
  client : Option Client
deriving DecidableEq, Repr

/-- Outcome of running one facade method: the state of the facade
afterwards, the log entries emitted, the remote calls issued in order,
and the returned value or raised exception. -/
structure MethodOut (α : Type) where
  state : TradeService
  logs : List LogEntry
  calls : List RemoteCall
  result : Except PyExn α

/-- An ASCII single-quote character, as a one-character string. -/
def squote : String := String.singleton (Char.ofNat 39)

/-- The `ValueError` message raised by the side validation shared by the
three order-placement methods of `trade_service.py`. -/
def invalidSideMsg (side : String) : String :=
  "Invalid SIDE: " ++ side ++ ". Must be " ++ squote ++ "BUY" ++ squote
    ++ " or " ++ squote ++ "SELL" ++ squote

/-- Embedding of `TradeService.place_futures_market_order`
(`trade_service.py` lines 45-79): validate the side, issue one
`futures_create_order` call with type MARKET, log, return the order;
any exception is logged at error level as "Market order failed: ..."
and re-raised. -/
def place_futures_market_order (self : TradeService) (remote : Remote)
    (symbol side : String) (quantity : ℚ) : MethodOut Order :=
  if side ∈ [SIDE_BUY, SIDE_SELL] then
    let infoLog : LogEntry :=
      ⟨.info, false,
        "Placing MARKET " ++ side ++ " order: " ++ toString quantity ++ " " ++ symbol⟩
    let p : OrderParams :=
      ⟨symbol, side, FUTURE_ORDER_TYPE_MARKET, none, quantity, none, none⟩
    match remote.futures_create_order p with
    | .error e =>
        ⟨self, [infoLog, ⟨.error, false, "Market order failed: " ++ e.msg⟩],
          [.futures_create_order p], .error e⟩
    | .ok order =>
        ⟨self,
          [infoLog,
            ⟨.info, true,
              "MARKET " ++ side ++ " | " ++ symbol ++ " | Qty: " ++ toString quantity
                ++ " | Order ID: " ++ toString order.orderId
                ++ " | Status: " ++ order.status⟩],
          [.futures_create_order p], .ok order⟩
  else
    let e : PyExn := .valueError (invalidSideMsg side)
    ⟨self, [⟨.error, false, "Market order failed: " ++ e.msg⟩], [], .error e⟩

/-- Embedding of `TradeService.place_futures_limit_order`
(`trade_service.py` lines 81-121): same side validation, one
`futures_create_order` call with type LIMIT and timeInForce GTC;
failures are logged as "Limit order failed: ..." and re-raised. -/
def place_futures_limit_order (self : TradeService) (remote : Remote)
    (symbol side : String) (quantity price : ℚ) : MethodOut Order :=
  if side ∈ [SIDE_BUY, SIDE_SELL] then
    let infoLog : LogEntry :=
      ⟨.info, false,
        "Placing LIMIT " ++ side ++ " order: " ++ toString quantity ++ " " ++ symbol
          ++ " at " ++ toString price⟩
    let p : OrderParams :=
      ⟨symbol, side, ORDER_TYPE_LIMIT, some TIME_IN_FORCE_GTC, quantity, some price, none⟩
    match remote.futures_create_order p with
    | .error e =>
        ⟨self, [infoLog, ⟨.error, false, "Limit order failed: " ++ e.msg⟩],
          [.futures_create_order p], .error e⟩
    | .ok order =>
        ⟨self,
          [infoLog,
            ⟨.info, true,
              "LIMIT " ++ side ++ " | " ++ symbol ++ " | Qty: " ++ toString quantity
                ++ " | Price: $" ++ toString price
                ++ " | Order ID: " ++ toString order.orderId
                ++ " | Status: " ++ order.status⟩],
          [.futures_create_order p], .ok order⟩
  else
    let e : PyExn := .valueError (invalidSideMsg side)
    ⟨self, [⟨.error, false, "Limit order failed: " ++ e.msg⟩], [], .error e⟩

/-- Embedding of `TradeService.place_stop_limit_order`
(`trade_service.py` lines 123-166): same side validation, one
`create_order` call (note: not `futures_create_order`) with type
STOP_LOSS_LIMIT, price and stopPrice; failures are logged as
"Market order failed: ..." (the message in the source) and re-raised. -/
def place_stop_limit_order (self : TradeService) (remote : Remote)
    (symbol side : String) (quantity price stop_price : ℚ) : MethodOut Order :=
  if side ∈ [SIDE_BUY, SIDE_SELL] then
    let infoLog : LogEntry :=
      ⟨.info, false,
        "Placing STOP_LIMIT " ++ side ++ " order: " ++ toString quantity ++ " " ++ symbol
          ++ " at " ++ toString price ++ " and stop price at " ++ toString stop_price⟩
    let p : OrderParams :=
      ⟨symbol, side, ORDER_TYPE_STOP_LOSS_LIMIT, none, quantity, some price, some stop_price⟩
    match remote.create_order p with
    | .error e =>
        ⟨self, [infoLog, ⟨.error, false, "Market order failed: " ++ e.msg⟩],
          [.create_order p], .error e⟩
    | .ok order =>
        ⟨self,
          [infoLog,
            ⟨.info, true,
              "STOP_LIMIT " ++ side ++ " | " ++ symbol ++ " | Qty: " ++ toString quantity
                ++ " | Price: " ++ toString price ++ " | Stop Price : " ++ toString stop_price
                ++ "Order ID: " ++ toString order.orderId
                ++ " | Status: " ++ order.status⟩],
          [.create_order p], .ok order⟩
  else
    let e : PyExn := .valueError (invalidSideMsg side)
    ⟨self, [⟨.error, false, "Market order failed: " ++ e.msg⟩], [], .error e⟩

/-- Embedding of `TradeService.get_current_price`
(`trade_service.py` lines 168-177): one `futures_symbol_ticker` call,
return the numeric price; failures logged and re-raised. -/
def get_current_price (self : TradeService) (remote : Remote)
    (symbol : String) : MethodOut ℚ :=
  match remote.futures_symbol_ticker symbol with
  | .error e =>
      ⟨self, [⟨.error, false, "Failed to get price: " ++ e.msg⟩],
        [.futures_symbol_ticker symbol], .error e⟩
  | .ok price =>
      ⟨self,
        [⟨.info, false, "Current price for " ++ symbol ++ ": $" ++ toString price⟩],
        [.futures_symbol_ticker symbol], .ok price⟩

/-- Embedding of `TradeService.get_account_balance`
(`trade_service.py` lines 179-188): one `futures_account` call, return
the total wallet balance; failures logged and re-raised. -/
def get_account_balance (self : TradeService) (remote : Remote) : MethodOut ℚ :=
  match remote.futures_account with
  | .error e =>
      ⟨self, [⟨.error, false, "Failed to get balance: " ++ e.msg⟩],
        [.futures_account], .error e⟩
  | .ok balance =>
      ⟨self,
        [⟨.info, false, "Account balance: $" ++ toString balance ++ " USDT"⟩],
        [.futures_account], .ok balance⟩

/-- Embedding of `TradeService.cancel_order`
(`trade_service.py` lines 190-200): one `futures_cancel_order` call;
failures logged and re-raised. -/
def cancel_order (self : TradeService) (remote : Remote)
    (symbol : String) (order_id : Int) : MethodOut CancelAck :=
  match remote.futures_cancel_order symbol order_id with
  | .error e =>
      ⟨self, [⟨.error, false, "Failed to cancel order: " ++ e.msg⟩],
        [.futures_cancel_order symbol order_id], .error e⟩
  | .ok result =>
      ⟨self,
        [⟨.info, false, "Order " ++ toString order_id ++ " canceled successfully"⟩],
        [.futures_cancel_order symbol order_id], .ok result⟩

/-- Embedding of `TradeService.get_open_orders`
(`trade_service.py` lines 202-210): one `futures_get_open_orders` call
with the optional symbol passed through; failures logged and re-raised. -/
def get_open_orders (self : TradeService) (remote : Remote)
    (symbol : Option String) : MethodOut (List Order) :=
  match remote.futures_get_open_orders symbol with
  | .error e =>
      ⟨self, [⟨.error, false, "Failed to get open orders: " ++ e.msg⟩],
        [.futures_get_open_orders symbol], .error e⟩
  | .ok orders =>
      ⟨self,
        [⟨.info, false, "Found " ++ toString orders.length ++ " open orders"⟩],
        [.futures_get_open_orders symbol], .ok orders⟩

/-- Embedding of `TradeService.get_position_info`
(`trade_service.py` lines 212-222): one `futures_position_information`
call with the optional symbol passed through; the remote sequence is
returned unfiltered; failures logged and re-raised. -/
def get_position_info (self : TradeService) (remote : Remote)
    (symbol : Option String) : MethodOut (List Position) :=
  match remote.futures_position_information symbol with
  | .error e =>
      ⟨self, [⟨.error, false, "Failed to get position info: " ++ e.msg⟩],
        [.futures_position_information symbol], .error e⟩
  | .ok positions =>
      ⟨self,
        [⟨.info, false,
          "Position info retrieved for "
            ++ (match symbol with | some s => s | none => "all symbols")⟩],
        [.futures_position_information symbol], .ok positions⟩

/-! ## Construction (`TradeService.__init__`) -/

/-- The `settings` object imported from `app.core.config`, which supplies
the default values of the optional `__init__` parameters. -/
structure Settings where
  TESTNET : Bool
  API_KEY : String
  SECRET_KEY : String
deriving DecidableEq, Repr

/-- The arguments a call site supplies to `TradeService(...)`: `none`
means the keyword was omitted.  The `logger` field records whether any
value was passed for the `logger` parameter (its value is irrelevant to
the embedded state, which never stores it in a field the claims read). -/
structure InitArgs where
  logger : Option Unit
  testnet : Option Bool
  api_key : Option String
  secret_key : Option String
deriving DecidableEq, Repr

/-- The `TypeError` message Python raises when `TradeService(...)` is
called without a value for the required positional parameter `logger`. -/
def missingLoggerMsg : String :=
  "TradeService.__init__() missing 1 required positional argument: "
    ++ squote ++ "logger" ++ squote

/-- Embedding of Python call binding for `TradeService.__init__`
(`trade_service.py` lines 17-28): `logger` has no default, so a call
that omits it raises `TypeError` before the body runs; otherwise the
body assigns the fields and leaves `client = None`. -/
def TradeService.init (settings : Settings) (args : InitArgs) :
    Except PyExn TradeService :=
  match args.logger with
  | none => .error (.typeError missingLoggerMsg)
  | some _ =>
      .ok
        { testnet := args.testnet.getD settings.TESTNET
          api_key := args.api_key.getD settings.API_KEY
          secret_key := args.secret_key.getD settings.SECRET_KEY
          client := none }

/-- The construction every CLI subcommand of `main.py` performs:
`TradeService(testnet=state.testnet, api_key=state.api_key,
secret_key=state.secret_key)` — no `logger` argument. -/
def cliConstructService (settings : Settings)
    (testnet : Bool) (api_key secret_key : String) : Except PyExn TradeService :=
  TradeService.init settings
    ⟨none, some testnet, some api_key, some secret_key⟩

/-! ## Scoped acquisition (`__aenter__` / `__aexit__` / `async with`) -/

/-- Connection-lifecycle events, used to state leak freedom. -/
inductive ConnEvent where
  | opened
  | closed
deriving DecidableEq, Repr

/-- Embedding of `TradeService.__aenter__` (`trade_service.py` lines
30-39): await `AsyncClient.create` (with `testnet=True` when in testnet
mode), store the client in `self.client`, log (info in testnet mode,
warning in live mode), and return self.  `createResult` is the outcome of
the awaited `AsyncClient.create` call; its failure propagates out of
`__aenter__` before any connection is established. -/
def TradeService.aenter (self : TradeService)
    (createResult : Except PyExn Client) :
    Except PyExn TradeService × List LogEntry × List ConnEvent :=
  match createResult with
  | .error e => (.error e, [], [])
  | .ok c =>
      (.ok { self with client := some c },
        [if self.testnet then
            (⟨.info, false, "Connected to Binance Futures TESTNET"⟩ : LogEntry)
          else
            ⟨.warning, false, "Connected to REAL Binance Futures - USE WITH CAUTION"⟩],
        [.opened])

/-- Embedding of `TradeService.__aexit__` (`trade_service.py` lines
41-43): close the connection unconditionally (the exception arguments are
ignored) and log. -/
def TradeService.aexit (self : TradeService) :
    TradeService × List LogEntry × List ConnEvent :=
  (self, [⟨.info, false, "Connection Closed"⟩], [.closed])

/-- Embedding of `async with service:` around a body, following Python
semantics: run `__aenter__`; if it raises, the body and `__aexit__` do not
run; otherwise run the body on the entered service, then run `__aexit__`
regardless of whether the body returned or raised, and propagate the
body outcome.  Returns the outcome and the connection-event trace. -/
def withService {α : Type} (self : TradeService)
    (createResult : Except PyExn Client)
    (body : TradeService → Except PyExn α) :
    Except PyExn α × List ConnEvent :=
  match self.aenter createResult with
  | (.error e, _, evs) => (.error e, evs)
  | (.ok entered, _, evs) =>
      let r := body entered
      let exitOut := entered.aexit
      (r, evs ++ exitOut.2.2)

/-! ## CLI surface (`main.py`) -/

/-- Python `str.upper()` on one character, for the ASCII range the CLI
symbol and side arguments use: code points 97-122 (a-z) map to 65-90
(A-Z), everything else is unchanged. -/
def pyUpperChar (c : Char) : Char :=
  if 97 ≤ c.toNat ∧ c.toNat ≤ 122 then Char.ofNat (c.toNat - 32) else c

/-- Python `str.upper()` on an (ASCII) string: upper-case each character. -/
def pyUpper (s : String) : String := String.mk (s.data.map pyUpperChar)

/-- The expression `symbol.upper() if symbol else None` of the `orders` and
`position` subcommands: `None` and the empty string are falsy, every other
string is upper-cased. -/
def optSymbolArg (symbol : Option String) : Option String :=
  match symbol with
  | none => none
  | some s => if s = "" then none else some (pyUpper s)

/-- The numeric amount `float(p.get("positionAmt", 0))` the `position`
subcommand reads from a position entry: a missing key counts as 0. -/
def posAmt (p : Position) : ℚ := p.positionAmt.getD 0

/-- The filter of the `position` subcommand (`main.py` lines 255-258):
keep exactly the entries whose amount is non-zero. -/
def active_positions (ps : List Position) : List Position :=
  ps.filter fun p => decide (posAmt p ≠ 0)

/-- What the `position` subcommand displays (`main.py` lines 255-283):
the rows of the Active Positions table, or the "No active positions"
message when the filtered list is empty. -/
structure PositionDisplay where
  rows : List Position
  noActiveMsg : Bool
deriving DecidableEq, Repr

/-- Embedding of the display step of the `position` subcommand. -/
def displayPositions (ps : List Position) : PositionDisplay :=
  let act := active_positions ps
  if act = [] then ⟨[], true⟩ else ⟨act, false⟩

/-- Outcome of one full CLI subcommand run: the result (or exception),
the remote calls issued, and the connection events. -/
structure CliOut where
  result : Except PyExn Unit
  calls : List RemoteCall
  events : List ConnEvent

/-- Embedding of the `market` subcommand body (`main.py` lines 77-88):
construct `TradeService(testnet=..., api_key=..., secret_key=...)` (no
`logger` argument), enter it with `async with`, call
`place_futures_market_order(symbol.upper(), side.upper(), quantity)`,
and leave the scope.  `createResult` is the outcome `AsyncClient.create`
would deliver. -/
def cliMarket (settings : Settings) (testnet : Bool) (api_key secret_key : String)
    (createResult : Except PyExn Client) (remote : Remote)
    (symbol side : String) (quantity : ℚ) : CliOut :=
  match cliConstructService settings testnet api_key secret_key with
  | .error e => ⟨.error e, [], []⟩
  | .ok svc =>
      match svc.aenter createResult with
      | (.error e, _, evs) => ⟨.error e, [], evs⟩
      | (.ok entered, _, evs) =>
          let out := place_futures_market_order entered remote
            (pyUpper symbol) (pyUpper side) quantity
          let exitOut := entered.aexit
          ⟨out.result.map fun _ => (), out.calls, evs ++ exitOut.2.2⟩

/-! ## Operation dispatcher (one constructor per facade operation) -/

/-- One facade operation together with its arguments, covering every
public method of `TradeService`. -/
inductive Op where
  | market (symbol side : String) (quantity : ℚ)
  | limit (symbol side : String) (quantity price : ℚ)
  | stopLimit (symbol side : String) (quantity price stop_price : ℚ)
  | price (symbol : String)
  | balance
  | cancel (symbol : String) (order_id : Int)
  | openOrders (symbol : Option String)
  | positionInfo (symbol : Option String)
deriving DecidableEq, Repr

/-- Return values of the facade operations, wrapped in one type so a
single dispatcher covers all operations. -/
inductive RespVal where
  | order (o : Order)
  | price (q : ℚ)
  | balance (q : ℚ)
  | cancelAck (c : CancelAck)
  | orders (os : List Order)
  | positions (ps : List Position)
deriving DecidableEq, Repr

/-- Repackage a method outcome into the common response type. -/
def MethodOut.wrap {α : Type} (f : α → RespVal) (out : MethodOut α) :
    MethodOut RespVal :=
  ⟨out.state, out.logs, out.calls, out.result.map f⟩

/-- Run one facade operation: dispatch to the corresponding method
embedding. -/
def runOp (self : TradeService) (remote : Remote) : Op → MethodOut RespVal
  | .market symbol side quantity =>
      (place_futures_market_order self remote symbol side quantity).wrap .order
  | .limit symbol side quantity price =>
      (place_futures_limit_order self remote symbol side quantity price).wrap .order
  | .stopLimit symbol side quantity price stop_price =>
      (place_stop_limit_order self remote symbol side quantity price stop_price).wrap .order
  | .price symbol => (get_current_price self remote symbol).wrap .price
  | .balance => (get_account_balance self remote).wrap .balance
  | .cancel symbol order_id => (cancel_order self remote symbol order_id).wrap .cancelAck
  | .openOrders symbol => (get_open_orders self remote symbol).wrap .orders
  | .positionInfo symbol => (get_position_info self remote symbol).wrap .positions

/-- Validation passes for the operation: the placement operations require
`side ∈ [BUY, SELL]`; the query operations validate nothing. -/
def Op.sideOk : Op → Prop
  | .market _ side _ => side ∈ [SIDE_BUY, SIDE_SELL]
  | .limit _ side _ _ => side ∈ [SIDE_BUY, SIDE_SELL]
  | .stopLimit _ side _ _ _ => side ∈ [SIDE_BUY, SIDE_SELL]
  | _ => True

instance (op : Op) : Decidable op.sideOk := by
  cases op <;> simp [Op.sideOk] <;> infer_instance

/-- The remote call the operation issues raises exception `e`: for each
operation, the oracle of the endpoint it uses returns `e` on exactly the
arguments the method passes. -/
def remoteRaises (remote : Remote) (e : PyExn) : Op → Prop
  | .market symbol side quantity =>
      remote.futures_create_order
        ⟨symbol, side, FUTURE_ORDER_TYPE_MARKET, none, quantity, none, none⟩ = .error e
  | .limit symbol side quantity price =>
      remote.futures_create_order
        ⟨symbol, side, ORDER_TYPE_LIMIT, some TIME_IN_FORCE_GTC, quantity,
          some price, none⟩ = .error e
  | .stopLimit symbol side quantity price stop_price =>
      remote.create_order
        ⟨symbol, side, ORDER_TYPE_STOP_LOSS_LIMIT, none, quantity,
          some price, some stop_price⟩ = .error e
  | .price symbol => remote.futures_symbol_ticker symbol = .error e
  | .balance => remote.futures_account = .error e
  | .cancel symbol order_id => remote.futures_cancel_order symbol order_id = .error e
  | .openOrders symbol => remote.futures_get_open_orders symbol = .error e
  | .positionInfo symbol => remote.futures_position_information symbol = .error e

/-- The prefix of the error-level log message each operation emits when
it fails (the literal text of the `logger.error` f-strings in
`trade_service.py`).  Note the stop-limit operation reuses the market
message. -/
def Op.errPrefix : Op → String
  | .market _ _ _ => "Market order failed: "
  | .limit _ _ _ _ => "Limit order failed: "
  | .stopLimit _ _ _ _ _ => "Market order failed: "
  | .price _ => "Failed to get price: "
  | .balance => "Failed to get balance: "
  | .cancel _ _ => "Failed to cancel order: "
  | .openOrders _ => "Failed to get open orders: "
  | .positionInfo _ => "Failed to get position info: "

/-! ## Concrete sample values used by witnesses -/

/-- A sample service state. -/
def sampleService : TradeService := ⟨true, "key", "secret", none⟩

/-- A sample live client handle. -/
def sampleClient : Client := ⟨"key", "secret", true⟩

/-- A sample order response. -/
def sampleOrder : Order := ⟨42, "NEW"⟩

/-- A remote oracle on which every endpoint succeeds. -/
def sampleRemoteOk : Remote :=
  ⟨fun _ => .ok sampleOrder, fun _ => .ok sampleOrder, fun _ => .ok 50000,
    .ok 1000, fun _ _ => .ok ⟨42, "CANCELED"⟩, fun _ => .ok [], fun _ => .ok []⟩

/-- A remote oracle on which every endpoint raises the given exception. -/
def sampleRemoteErr (e : PyExn) : Remote :=
  ⟨fun _ => .error e, fun _ => .error e, fun _ => .error e,
    .error e, fun _ _ => .error e, fun _ => .error e, fun _ => .error e⟩

/-- A sample position entry with a non-zero amount. -/
def samplePosActive : Position := ⟨"BTCUSDT", some 2, "100", "110", some 20⟩

/-- A sample position entry with amount zero. -/
def samplePosZero : Position := ⟨"ETHUSDT", some 0, "0", "0", some 0⟩

/-- A sample position entry whose response dict lacks the positionAmt key. -/
def samplePosMissing : Position := ⟨"XRPUSDT", none, "0", "0", none⟩

/-- A remote oracle whose position endpoint returns only zero-amount
entries. -/
def sampleAllZeroRemote : Remote :=
  { sampleRemoteOk with
      futures_position_information := fun _ => .ok [samplePosZero, samplePosMissing] }

/-! ## Theorems about the claims -/

/-- C1: the facade cannot in fact be constructed from only credentials and
the network-mode flag: `__init__` declares `logger` as a required
positional parameter, so the construction every CLI subcommand performs
(passing only `testnet`, `api_key` and `secret_key`) raises `TypeError`
instead of yielding a facade; this evaluates the code at exactly that
failing call. -/
theorem cli_construction_missing_logger_raises
    (settings : Settings) (testnet : Bool) (api_key secret_key : String) :
    cliConstructService settings testnet api_key secret_key
      = Except.error (PyExn.typeError missingLoggerMsg) := rfl

/-- C5: invoking the CLI market command with symbol "btcusdt", side "buy",
quantity 0.001 does not reach the exchange: the `TradeService(...)`
construction raises `TypeError` (missing `logger`), so the run ends with
that exception, zero remote calls and no connection event — not the one
`futures_create_order` call the claim describes. -/
theorem cli_market_example_fails_before_any_remote_call
    (settings : Settings) (testnet : Bool) (api_key secret_key : String)
    (createResult : Except PyExn Client) (remote : Remote) :
    cliMarket settings testnet api_key secret_key createResult remote
        "btcusdt" "buy" (1 / 1000)
      = ⟨Except.error (PyExn.typeError missingLoggerMsg), [], []⟩ := rfl

/-- C2: for every side value outside BUY/SELL, each of the three placement
methods raises the validation `ValueError` and issues no remote call at
all in that run. -/
theorem placement_invalid_side_no_remote_call
    (st : TradeService) (remote : Remote) (symbol side : String)
    (quantity price stop_price : ℚ)
    (h : side ∉ [SIDE_BUY, SIDE_SELL]) :
    ((place_futures_market_order st remote symbol side quantity).result
          = Except.error (PyExn.valueError (invalidSideMsg side))
        ∧ (place_futures_market_order st remote symbol side quantity).calls = [])
      ∧ ((place_futures_limit_order st remote symbol side quantity price).result
          = Except.error (PyExn.valueError (invalidSideMsg side))
        ∧ (place_futures_limit_order st remote symbol side quantity price).calls = [])
      ∧ ((place_stop_limit_order st remote symbol side quantity price stop_price).result
          = Except.error (PyExn.valueError (invalidSideMsg side))
        ∧ (place_stop_limit_order st remote symbol side quantity price stop_price).calls
            = []) := by
  simp only [place_futures_market_order, place_futures_limit_order,
    place_stop_limit_order, if_neg h]
  exact ⟨⟨trivial, trivial⟩, ⟨trivial, trivial⟩, ⟨trivial, trivial⟩⟩

/-- Witness for C2 at side "HOLD". -/
theorem placement_invalid_side_no_remote_call_witness :
    ("HOLD" ∉ [SIDE_BUY, SIDE_SELL])
      ∧ (((place_futures_market_order sampleService sampleRemoteOk "BTCUSDT" "HOLD" 1).result
            = Except.error (PyExn.valueError (invalidSideMsg "HOLD"))
          ∧ (place_futures_market_order sampleService sampleRemoteOk "BTCUSDT" "HOLD" 1).calls
              = [])
        ∧ ((place_futures_limit_order sampleService sampleRemoteOk "BTCUSDT" "HOLD" 1 2).result
            = Except.error (PyExn.valueError (invalidSideMsg "HOLD"))
          ∧ (place_futures_limit_order sampleService sampleRemoteOk "BTCUSDT" "HOLD" 1 2).calls
              = [])
        ∧ ((place_stop_limit_order sampleService sampleRemoteOk "BTCUSDT" "HOLD" 1 2 3).result
            = Except.error (PyExn.valueError (invalidSideMsg "HOLD"))
          ∧ (place_stop_limit_order sampleService sampleRemoteOk "BTCUSDT" "HOLD" 1 2 3).calls
              = [])) :=
  ⟨by decide,
    placement_invalid_side_no_remote_call sampleService sampleRemoteOk "BTCUSDT" "HOLD"
      1 2 3 (by decide)⟩

/-- C3: for every facade operation, when the remote call it issues raises
any exception (and, for the placement operations, side validation passed
so the remote call is reached), the operation emits exactly one
error-level log entry — whose message is the operation's error prefix
followed by the original exception message — re-raises that same
exception unchanged, leaves the facade state unmodified, and issues
exactly one remote call (no retry). -/
theorem facade_remote_failure_passthrough
    (st : TradeService) (remote : Remote) (op : Op) (e : PyExn)
    (hside : op.sideOk) (hremote : remoteRaises remote e op) :
    (runOp st remote op).result = Except.error e
      ∧ errorLogs (runOp st remote op).logs
          = [⟨LogLevel.error, false, op.errPrefix ++ e.msg⟩]
      ∧ (runOp st remote op).state = st
      ∧ (runOp st remote op).calls.length = 1 := by
  cases op with
  | market symbol side quantity =>
      simp only [Op.sideOk] at hside
      simp only [remoteRaises] at hremote
      simp only [runOp, MethodOut.wrap, place_futures_market_order]
      rw [if_pos hside, hremote]
      exact ⟨rfl, rfl, rfl, rfl⟩
  | limit symbol side quantity price =>
      simp only [Op.sideOk] at hside
      simp only [remoteRaises] at hremote
      simp only [runOp, MethodOut.wrap, place_futures_limit_order]
      rw [if_pos hside, hremote]
      exact ⟨rfl, rfl, rfl, rfl⟩
  | stopLimit symbol side quantity price stop_price =>
      simp only [Op.sideOk] at hside
      simp only [remoteRaises] at hremote
      simp only [runOp, MethodOut.wrap, place_stop_limit_order]
      rw [if_pos hside, hremote]
      exact ⟨rfl, rfl, rfl, rfl⟩
  | price symbol =>
      simp only [remoteRaises] at hremote
      simp only [runOp, MethodOut.wrap, get_current_price]
      rw [hremote]
      exact ⟨rfl, rfl, rfl, rfl⟩
  | balance =>
      simp only [remoteRaises] at hremote
      simp only [runOp, MethodOut.wrap, get_account_balance]
      rw [hremote]
      exact ⟨rfl, rfl, rfl, rfl⟩
  | cancel symbol order_id =>
      simp only [remoteRaises] at hremote
      simp only [runOp, MethodOut.wrap, cancel_order]
      rw [hremote]
      exact ⟨rfl, rfl, rfl, rfl⟩
  | openOrders symbol =>
      simp only [remoteRaises] at hremote
      simp only [runOp, MethodOut.wrap, get_open_orders]
      rw [hremote]
      exact ⟨rfl, rfl, rfl, rfl⟩
  | positionInfo symbol =>
      simp only [remoteRaises] at hremote
      simp only [runOp, MethodOut.wrap, get_position_info]
      rw [hremote]
      exact ⟨rfl, rfl, rfl, rfl⟩

/-- Witness for C3: the balance operation against a remote that raises. -/
theorem facade_remote_failure_passthrough_witness :
    (Op.balance.sideOk ∧ remoteRaises (sampleRemoteErr (.remote "boom")) (.remote "boom") .balance)
      ∧ ((runOp sampleService (sampleRemoteErr (.remote "boom")) .balance).result
            = Except.error (.remote "boom")
          ∧ errorLogs (runOp sampleService (sampleRemoteErr (.remote "boom")) .balance).logs
              = [⟨LogLevel.error, false,
                  (Op.balance).errPrefix ++ (PyExn.remote "boom").msg⟩]
          ∧ (runOp sampleService (sampleRemoteErr (.remote "boom")) .balance).state
              = sampleService
          ∧ (runOp sampleService (sampleRemoteErr (.remote "boom")) .balance).calls.length
              = 1) :=
  ⟨⟨trivial, rfl⟩,
    facade_remote_failure_passthrough sampleService (sampleRemoteErr (.remote "boom"))
      .balance (.remote "boom") trivial rfl⟩

/-- C4: in a scoped use of the facade, when client creation succeeds the
body runs on a state whose client handle is the established connection,
and the event trace is exactly open-then-close whatever the body outcome
(returned or raised) — the outcome is propagated unchanged; when client
creation raises, nothing is opened and nothing needs release.  In every
case the number of opened connections equals the number of closed ones:
no leak across a single scoped use. -/
theorem scoped_use_opens_before_and_always_closes {α : Type}
    (svc : TradeService) (createResult : Except PyExn Client)
    (body : TradeService → Except PyExn α) :
    ((withService svc createResult body).2.count ConnEvent.opened
        = (withService svc createResult body).2.count ConnEvent.closed)
      ∧ (match createResult with
          | .ok c =>
              withService svc createResult body
                  = (body { svc with client := some c },
                      [ConnEvent.opened, ConnEvent.closed])
                ∧ ({ svc with client := some c } : TradeService).client = some c
          | .error e =>
              withService svc createResult body = (Except.error e, [])) := by
  cases createResult with
  | error e => exact ⟨rfl, rfl⟩
  | ok c => exact ⟨rfl, rfl, rfl⟩

/-! Helper lemmas: the exact remote-call trace of each facade method,
independent of the remote outcome. -/

theorem market_calls_eq (st : TradeService) (remote : Remote)
    (symbol side : String) (quantity : ℚ) (h : side ∈ [SIDE_BUY, SIDE_SELL]) :
    (place_futures_market_order st remote symbol side quantity).calls
      = [RemoteCall.futures_create_order
          ⟨symbol, side, FUTURE_ORDER_TYPE_MARKET, none, quantity, none, none⟩] := by
  simp only [place_futures_market_order]
  rw [if_pos h]
  cases remote.futures_create_order
    ⟨symbol, side, FUTURE_ORDER_TYPE_MARKET, none, quantity, none, none⟩ <;> rfl

theorem limit_calls_eq (st : TradeService) (remote : Remote)
    (symbol side : String) (quantity price : ℚ) (h : side ∈ [SIDE_BUY, SIDE_SELL]) :
    (place_futures_limit_order st remote symbol side quantity price).calls
      = [RemoteCall.futures_create_order
          ⟨symbol, side, ORDER_TYPE_LIMIT, some TIME_IN_FORCE_GTC, quantity,
            some price, none⟩] := by
  simp only [place_futures_limit_order]
  rw [if_pos h]
  cases remote.futures_create_order
    ⟨symbol, side, ORDER_TYPE_LIMIT, some TIME_IN_FORCE_GTC, quantity,
      some price, none⟩ <;> rfl

theorem stop_limit_calls_eq (st : TradeService) (remote : Remote)
    (symbol side : String) (quantity price stop_price : ℚ)
    (h : side ∈ [SIDE_BUY, SIDE_SELL]) :
    (place_stop_limit_order st remote symbol side quantity price stop_price).calls
      = [RemoteCall.create_order
          ⟨symbol, side, ORDER_TYPE_STOP_LOSS_LIMIT, none, quantity,
            some price, some stop_price⟩] := by
  simp only [place_stop_limit_order]
  rw [if_pos h]
  cases remote.create_order
    ⟨symbol, side, ORDER_TYPE_STOP_LOSS_LIMIT, none, quantity,
      some price, some stop_price⟩ <;> rfl

theorem price_calls_eq (st : TradeService) (remote : Remote) (symbol : String) :
    (get_current_price st remote symbol).calls
      = [RemoteCall.futures_symbol_ticker symbol] := by
  simp only [get_current_price]
  cases remote.futures_symbol_ticker symbol <;> rfl

theorem cancel_calls_eq (st : TradeService) (remote : Remote)
    (symbol : String) (order_id : Int) :
    (cancel_order st remote symbol order_id).calls
      = [RemoteCall.futures_cancel_order symbol order_id] := by
  simp only [cancel_order]
  cases remote.futures_cancel_order symbol order_id <;> rfl

theorem open_orders_calls_eq (st : TradeService) (remote : Remote)
    (symbol : Option String) :
    (get_open_orders st remote symbol).calls
      = [RemoteCall.futures_get_open_orders symbol] := by
  simp only [get_open_orders]
  cases remote.futures_get_open_orders symbol <;> rfl

theorem position_info_calls_eq (st : TradeService) (remote : Remote)
    (symbol : Option String) :
    (get_position_info st remote symbol).calls
      = [RemoteCall.futures_position_information symbol] := by
  simp only [get_position_info]
  cases remote.futures_position_information symbol <;> rfl

/-- C6: with a valid side, the stop-limit placement issues exactly one
remote call, of order type STOP_LOSS_LIMIT carrying the given quantity,
price and stopPrice, and that call goes through the generic
`create_order` entry point, while the market and limit placements go
through `futures_create_order`. -/
theorem stop_limit_uses_generic_create_order
    (st : TradeService) (remote : Remote) (symbol side : String)
    (quantity price stop_price : ℚ) (h : side ∈ [SIDE_BUY, SIDE_SELL]) :
    (place_stop_limit_order st remote symbol side quantity price stop_price).calls
        = [RemoteCall.create_order
            ⟨symbol, side, ORDER_TYPE_STOP_LOSS_LIMIT, none, quantity,
              some price, some stop_price⟩]
      ∧ ((place_stop_limit_order st remote symbol side quantity price stop_price).calls.map
            RemoteCall.endpoint = ["create_order"])
      ∧ ((place_futures_market_order st remote symbol side quantity).calls.map
            RemoteCall.endpoint = ["futures_create_order"])
      ∧ ((place_futures_limit_order st remote symbol side quantity price).calls.map
            RemoteCall.endpoint = ["futures_create_order"]) := by
  refine ⟨stop_limit_calls_eq st remote symbol side quantity price stop_price h, ?_, ?_, ?_⟩
  · rw [stop_limit_calls_eq st remote symbol side quantity price stop_price h]; rfl
  · rw [market_calls_eq st remote symbol side quantity h]; rfl
  · rw [limit_calls_eq st remote symbol side quantity price h]; rfl

/-- Witness for C6 at a concrete stop-limit order. -/
theorem stop_limit_uses_generic_create_order_witness :
    ("SELL" ∈ [SIDE_BUY, SIDE_SELL])
      ∧ ((place_stop_limit_order sampleService sampleRemoteOk "BTCUSDT" "SELL" 1 2 3).calls
            = [RemoteCall.create_order
                ⟨"BTCUSDT", "SELL", ORDER_TYPE_STOP_LOSS_LIMIT, none, 1, some 2, some 3⟩]
          ∧ ((place_stop_limit_order sampleService sampleRemoteOk "BTCUSDT" "SELL" 1 2 3).calls.map
                RemoteCall.endpoint = ["create_order"])
          ∧ ((place_futures_market_order sampleService sampleRemoteOk "BTCUSDT" "SELL" 1).calls.map
                RemoteCall.endpoint = ["futures_create_order"])
          ∧ ((place_futures_limit_order sampleService sampleRemoteOk "BTCUSDT" "SELL" 1 2).calls.map
                RemoteCall.endpoint = ["futures_create_order"])) :=
  ⟨by decide,
    stop_limit_uses_generic_create_order sampleService sampleRemoteOk "BTCUSDT" "SELL"
      1 2 3 (by decide)⟩

/-- C7: for every casing of the symbol argument, each CLI subcommand
passes the upper-cased symbol to its facade call, and the facade carries
exactly that symbol in the single remote call it issues: every remote
call of the market, limit, stop-limit, price, cancel, orders and
position commands transmits the upper-cased input symbol (for the two
optional-symbol commands, with a non-empty — hence truthy — input). -/
theorem cli_symbol_always_uppercased
    (st : TradeService) (remote : Remote) (sym side : String)
    (quantity price stop_price : ℚ) (order_id : Int)
    (hside : pyUpper side ∈ [SIDE_BUY, SIDE_SELL]) (hsym : sym ≠ "") :
    ((place_futures_market_order st remote (pyUpper sym) (pyUpper side) quantity).calls.map
        RemoteCall.symbolSent = [some (pyUpper sym)])
      ∧ ((place_futures_limit_order st remote (pyUpper sym) (pyUpper side)
            quantity price).calls.map RemoteCall.symbolSent = [some (pyUpper sym)])
      ∧ ((place_stop_limit_order st remote (pyUpper sym) (pyUpper side)
            quantity price stop_price).calls.map RemoteCall.symbolSent
          = [some (pyUpper sym)])
      ∧ ((get_current_price st remote (pyUpper sym)).calls.map RemoteCall.symbolSent
          = [some (pyUpper sym)])
      ∧ ((cancel_order st remote (pyUpper sym) order_id).calls.map RemoteCall.symbolSent
          = [some (pyUpper sym)])
      ∧ ((get_open_orders st remote (optSymbolArg (some sym))).calls.map
            RemoteCall.symbolSent = [some (pyUpper sym)])
      ∧ ((get_position_info st remote (optSymbolArg (some sym))).calls.map
            RemoteCall.symbolSent = [some (pyUpper sym)]) := by
  have hopt : optSymbolArg (some sym) = some (pyUpper sym) := by
    simp [optSymbolArg, hsym]
  refine ⟨?_, ?_, ?_, ?_, ?_, ?_, ?_⟩
  · rw [market_calls_eq _ _ _ _ _ hside]; rfl
  · rw [limit_calls_eq _ _ _ _ _ _ hside]; rfl
  · rw [stop_limit_calls_eq _ _ _ _ _ _ _ hside]; rfl
  · rw [price_calls_eq]; rfl
  · rw [cancel_calls_eq]; rfl
  · rw [hopt, open_orders_calls_eq]; rfl
  · rw [hopt, position_info_calls_eq]; rfl

/-- Witness for C7 at lower-case inputs "btcusdt" and "buy". -/
theorem cli_symbol_always_uppercased_witness :
    (pyUpper "buy" ∈ [SIDE_BUY, SIDE_SELL])
      ∧ ("btcusdt" : String) ≠ ""
      ∧ ((place_futures_market_order sampleService sampleRemoteOk (pyUpper "btcusdt")
            (pyUpper "buy") 1).calls.map RemoteCall.symbolSent
          = [some (pyUpper "btcusdt")])
      ∧ pyUpper "btcusdt" = "BTCUSDT" :=
  ⟨by decide, by decide,
    (cli_symbol_always_uppercased sampleService sampleRemoteOk "btcusdt" "buy"
        1 2 3 7 (by decide) (by decide)).1,
    by decide⟩

/-! Helper lemmas for the position display. -/

theorem displayPositions_rows (ps : List Position) :
    (displayPositions ps).rows = active_positions ps := by
  simp only [displayPositions]
  by_cases h : active_positions ps = []
  · rw [if_pos h, h]
  · rw [if_neg h]

theorem mem_active_positions (ps : List Position) (p : Position) :
    p ∈ active_positions ps ↔ p ∈ ps ∧ posAmt p ≠ 0 := by
  simp [active_positions]

/-- C8: the facade's `get_position_info` returns the remote sequence
unfiltered, while the CLI display set contains exactly the returned
entries whose position amount is non-zero; when every returned entry has
zero amount the display is empty and the "No active positions" message
is shown. -/
theorem position_display_filters_nonzero_only
    (st : TradeService) (remote : Remote) (symbol : Option String)
    (ps : List Position)
    (hremote : remote.futures_position_information symbol = Except.ok ps) :
    (get_position_info st remote symbol).result = Except.ok ps
      ∧ (∀ p, p ∈ (displayPositions ps).rows ↔ p ∈ ps ∧ posAmt p ≠ 0)
      ∧ ((∀ p ∈ ps, posAmt p = 0) → displayPositions ps = ⟨[], true⟩) := by
  refine ⟨?_, ?_, ?_⟩
  · simp only [get_position_info]
    rw [hremote]
  · intro p
    rw [displayPositions_rows]
    exact mem_active_positions ps p
  · intro hall
    have hnil : active_positions ps = [] := by
      simp only [active_positions, List.filter_eq_nil_iff]
      intro p hp
      simp [hall p hp]
    simp only [displayPositions]
    rw [if_pos hnil]

/-- Witness for C8: a remote returning only zero-amount entries yields an
empty display set with the no-active message, while the facade returns
both entries. -/
theorem position_display_filters_nonzero_only_witness :
    (sampleAllZeroRemote.futures_position_information none
        = Except.ok [samplePosZero, samplePosMissing])
      ∧ (get_position_info sampleService sampleAllZeroRemote none).result
          = Except.ok [samplePosZero, samplePosMissing]
      ∧ displayPositions [samplePosZero, samplePosMissing] = ⟨[], true⟩ :=
  ⟨rfl,
    (position_display_filters_nonzero_only sampleService sampleAllZeroRemote none
        [samplePosZero, samplePosMissing] rfl).1,
    (position_display_filters_nonzero_only sampleService sampleAllZeroRemote none
        [samplePosZero, samplePosMissing] rfl).2.2 (by decide)⟩

/-- C9: whenever `place_stop_limit_order` fails — by side validation or
by a remote rejection — its single error-level log message is the text
"Market order failed: " followed by the original exception message,
i.e. it is labelled as a market-order failure, not a stop-limit one. -/
theorem stop_limit_error_log_says_market
    (st : TradeService) (remote : Remote) (symbol side : String)
    (quantity price stop_price : ℚ) (e : PyExn) :
    (side ∉ [SIDE_BUY, SIDE_SELL] →
        errorLogs
            (place_stop_limit_order st remote symbol side quantity price stop_price).logs
          = [⟨LogLevel.error, false, "Market order failed: " ++ invalidSideMsg side⟩])
      ∧ (side ∈ [SIDE_BUY, SIDE_SELL] →
          remote.create_order
              ⟨symbol, side, ORDER_TYPE_STOP_LOSS_LIMIT, none, quantity,
                some price, some stop_price⟩ = Except.error e →
          errorLogs
              (place_stop_limit_order st remote symbol side quantity price stop_price).logs
            = [⟨LogLevel.error, false, "Market order failed: " ++ e.msg⟩]) := by
  constructor
  · intro h
    simp only [place_stop_limit_order]
    rw [if_neg h]
    rfl
  · intro h hrem
    simp only [place_stop_limit_order]
    rw [if_pos h, hrem]
    rfl

/-- Witness for C9: a remote rejection of a concrete stop-limit order. -/
theorem stop_limit_error_log_says_market_witness :
    ("SELL" ∈ [SIDE_BUY, SIDE_SELL])
      ∧ ((sampleRemoteErr (.remote "boom")).create_order
            ⟨"BTCUSDT", "SELL", ORDER_TYPE_STOP_LOSS_LIMIT, none, 1, some 2, some 3⟩
          = Except.error (.remote "boom"))
      ∧ errorLogs
            (place_stop_limit_order sampleService (sampleRemoteErr (.remote "boom"))
              "BTCUSDT" "SELL" 1 2 3).logs
          = [⟨LogLevel.error, false,
              "Market order failed: " ++ (PyExn.remote "boom").msg⟩] :=
  ⟨by decide, rfl,
    (stop_limit_error_log_says_market sampleService (sampleRemoteErr (.remote "boom"))
        "BTCUSDT" "SELL" 1 2 3 (.remote "boom")).2 (by decide) rfl⟩

/-- C10: a position entry lacking the positionAmt key is read as amount 0
(no exception), is excluded from the display rows, and every displayed
row has a present, non-zero amount. -/
theorem missing_positionAmt_excluded
    (ps : List Position) (p : Position) (h : p.positionAmt = none) :
    posAmt p = 0
      ∧ p ∉ (displayPositions ps).rows
      ∧ ∀ q ∈ (displayPositions ps).rows, ∃ a, q.positionAmt = some a ∧ a ≠ 0 := by
  have hz : posAmt p = 0 := by simp [posAmt, h]
  refine ⟨hz, ?_, ?_⟩
  · rw [displayPositions_rows]
    intro hmem
    exact ((mem_active_positions ps p).mp hmem).2 hz
  · intro q hq
    rw [displayPositions_rows] at hq
    have hqa := ((mem_active_positions ps q).mp hq).2
    cases hcase : q.positionAmt with
    | none => exact absurd (by simp [posAmt, hcase]) hqa
    | some a =>
        refine ⟨a, rfl, ?_⟩
        intro ha
        exact hqa (by simp [posAmt, hcase, ha])

/-- Witness for C10 at an entry with no positionAmt key. -/
theorem missing_positionAmt_excluded_witness :
    (samplePosMissing.positionAmt = none)
      ∧ posAmt samplePosMissing = 0
      ∧ samplePosMissing ∉ (displayPositions [samplePosActive, samplePosMissing]).rows :=
  ⟨rfl,
    (missing_positionAmt_excluded [samplePosActive, samplePosMissing]
        samplePosMissing rfl).1,
    (missing_positionAmt_excluded [samplePosActive, samplePosMissing]
        samplePosMissing rfl).2.1⟩

end BinanceBot
